import Mathlib

/-!
Verification of `pgbouncer_config_reload/cli.py`.

The Python program is shallowly embedded as pure Lean functions that return
the trace of observable side effects (log calls, sleeps, database operations)
each code path performs.  External failure points (the psycopg2 calls inside
`pgbouncer_reload`) are modelled by a `ReloadFault` parameter naming which of
the fallible steps raises; the Python `try/except/finally` structure is
transcribed branch by branch from the source.
-/

namespace PgbouncerReload

/-- The observable side effects performed by the program: log calls at the
four levels used in `cli.py`, `time.sleep`, and the psycopg2 operations
(`connect`, `set_isolation_level`, obtaining a cursor, `execute`, `commit`,
`cursor.close`, `connection.close`). -/
inductive Action where
  | logDebug (msg : String)
  | logInfo (msg : String)
  | logWarning (msg : String)
  | logError (msg : String)
  | sleep (seconds : Nat)
  | connect (user password host : String) (port : Nat) (database : String)
  | setIsolationLevel (level : Nat)
  | cursorOpen
  | execute (stmt : String)
  | commit
  | cursorClose
  | connClose
deriving DecidableEq

/-- Which fallible psycopg2 step inside the `try` block of
`ConfigmapHandler.pgbouncer_reload` raises, if any.  `noFault` is the
success path. -/
inductive ReloadFault where
  | noFault
  | connectFail
  | setIsolationFail
  | cursorFail
  | executeFail
  | commitFail
deriving DecidableEq

/-- A human-readable cause for each fault, standing in for the Python
exception text interpolated into the `log.error` f-string. -/
def faultMsg : ReloadFault → String
  | .noFault => ""
  | .connectFail => "could not connect to server"
  | .setIsolationFail => "set_isolation_level failed"
  | .cursorFail => "cursor creation failed"
  | .executeFail => "RELOAD command failed"
  | .commitFail => "commit failed"

/-- The constructor state of `ConfigmapHandler.__init__`: pgbouncer
connection parameters plus the pre-reload wait.  The Python defaults are
`database='pgbouncer'` and `timeout=10`. -/
structure ConfigmapHandler where
  host : String
  port : Nat
  user : String
  password : String
  database : String := "pgbouncer"
  timeout : Nat := 10
deriving DecidableEq

/-- A watchdog filesystem event as consumed by `on_created`: the created
path and the directory flag. -/
structure FileSystemEvent where
  src_path : String
  is_directory : Bool
deriving DecidableEq

/-- The result of one `pgbouncer_reload` call: the effect trace, whether
`psycopg2.connect` returned (so `connection` is not `None` in the
`finally` block), whether a cursor was obtained, whether the `except`
clause caught an error, and whether any exception escaped the method. -/
structure ReloadOutcome where
  trace : List Action
  connectionAcquired : Bool
  cursorAcquired : Bool
  errorCaught : Bool
  propagated : Bool
deriving DecidableEq

/-- The `log.error(f"Failed to RELOAD pgbouncer: \x7berror\x7d")` call of the
`except` clause. -/
def errLog (f : ReloadFault) : Action :=
  Action.logError ("Failed to RELOAD pgbouncer: " ++ faultMsg f)

/-- The `finally` block of `pgbouncer_reload`: close the cursor if one was
obtained, and if a connection was obtained close it and emit the two
unconditional log lines. -/
def cleanupTrace (cursor connection : Bool) : List Action :=
  (if cursor then [Action.cursorClose] else []) ++
  (if connection then
    [Action.connClose,
     Action.logDebug "Pgbouncer connection is closed",
     Action.logInfo "Pgbouncer gracefully reloaded."]
   else [])

/-- `ConfigmapHandler.pgbouncer_reload`, transcribed branch by branch for
each possible faulting step.  The `try` body runs
`connect` / `set_isolation_level(0)` / `cursor()` / `execute("RELOAD;")` /
`commit()` in order until the given fault raises; the `except` clause
catches every exception and logs it; the `finally` block always runs. -/
def pgbouncer_reload (h : ConfigmapHandler) (f : ReloadFault) : ReloadOutcome :=
  let start := Action.logDebug "Pgbouncer graceful reload starting..."
  let conn := Action.connect h.user h.password h.host h.port h.database
  match f with
  | .connectFail =>
      ⟨[start, conn, errLog f] ++ cleanupTrace false false,
       false, false, true, false⟩
  | .setIsolationFail =>
      ⟨[start, conn, Action.setIsolationLevel 0, errLog f] ++ cleanupTrace false true,
       true, false, true, false⟩
  | .cursorFail =>
      ⟨[start, conn, Action.setIsolationLevel 0, Action.cursorOpen, errLog f] ++
         cleanupTrace false true,
       true, false, true, false⟩
  | .executeFail =>
      ⟨[start, conn, Action.setIsolationLevel 0, Action.cursorOpen,
        Action.execute "RELOAD;", errLog f] ++ cleanupTrace true true,
       true, true, true, false⟩
  | .commitFail =>
      ⟨[start, conn, Action.setIsolationLevel 0, Action.cursorOpen,
        Action.execute "RELOAD;", Action.commit, errLog f] ++ cleanupTrace true true,
       true, true, true, false⟩
  | .noFault =>
      ⟨[start, conn, Action.setIsolationLevel 0, Action.cursorOpen,
        Action.execute "RELOAD;", Action.commit] ++ cleanupTrace true true,
       true, true, false, false⟩

/-- `listStartsWith s p` decides whether the list `s` begins with `p`
(character-level model of Python `str.startswith`). -/
def listStartsWith : List Char → List Char → Bool
  | _, [] => true
  | [], _ :: _ => false
  | c :: cs, d :: ds => c == d && listStartsWith cs ds

/-- `str.startswith` on strings, via the character lists. -/
def strStartsWith (s pat : String) : Bool :=
  listStartsWith s.data pat.data

/-- `os.path.basename`: the part of the path after the last slash. -/
def basename (path : String) : String :=
  ((path.data.reverse.takeWhile (fun c => c != '/')).reverse).asString

/-- An event passes the `on_created` filter when it is not directory-flagged
and the basename of its path starts with the marker `..data`. -/
def qualifies (e : FileSystemEvent) : Bool :=
  !e.is_directory && strStartsWith (basename e.src_path) "..data"

/-- `ConfigmapHandler.on_created`: directory events are ignored; file
events are logged; when the basename starts with `..data` the handler
sleeps `timeout` seconds and then calls `pgbouncer_reload`. -/
def on_created (h : ConfigmapHandler) (f : ReloadFault) (e : FileSystemEvent) :
    List Action :=
  if e.is_directory then []
  else
    if strStartsWith (basename e.src_path) "..data" then
      [Action.logInfo ("CREATE event: " ++ e.src_path), Action.sleep h.timeout] ++
        (pgbouncer_reload h f).trace
    else
      [Action.logInfo ("CREATE event: " ++ e.src_path)]

/-- A sequence of creation events handled one after the other, each with the
fault its reload attempt (if any) encounters. -/
def processEvents (h : ConfigmapHandler) :
    List (FileSystemEvent × ReloadFault) → List Action
  | [] => []
  | (e, f) :: rest => on_created h f e ++ processEvents h rest

/-- Recognizes the `psycopg2.connect` action, the first step of every
`pgbouncer_reload` invocation. -/
def isConnectAction : Action → Bool
  | .connect _ _ _ _ _ => true
  | _ => false

/-- The number of reload attempts recorded in a trace, counted by connection
attempts (each `pgbouncer_reload` call attempts exactly one). -/
def reloadAttempts (trace : List Action) : Nat :=
  (trace.filter isConnectAction).length

/-- Python `str.split(sep)` for a one-character separator, on character
lists: splitting the empty string gives one empty group. -/
def splitOnChar (sep : Char) : List Char → List (List Char)
  | [] => [[]]
  | c :: rest =>
      let r := splitOnChar sep rest
      if c == sep then [] :: r
      else
        match r with
        | [] => [[c]]
        | g :: gs => (c :: g) :: gs

/-- `args.config_path.split(";")` from `run`. -/
def splitPaths (config_path : String) : List String :=
  (splitOnChar ';' config_path.data).map List.asString

/-- The `log.warning` line emitted by `run` for a path that is not an
existing directory. -/
def warnAction (path : String) : Action :=
  Action.logWarning ("Path " ++ path ++ " is not a directory or does not exist. Skipping...")

/-- The `log.info` line emitted by `run` for a path it schedules. -/
def watchAction (path : String) : Action :=
  Action.logInfo ("Watching path: " ++ path)

/-- The outcome of `run`: its log trace, the paths scheduled on the
observer, whether it reached the idle `while True: time.sleep(1)` loop,
and whether it raised a configuration error before doing so. -/
structure RunOutcome where
  trace : List Action
  scheduled : List String
  enteredLoop : Bool
  raisedConfigError : Bool
deriving DecidableEq

/-- The path-validation loop of `run`: for each path, schedule it and log
`Watching path` if `os.path.isdir` holds, otherwise log a warning and skip
it.  Returns the log trace and the scheduled paths in order. -/
def schedulePaths (isdir : String → Bool) : List String → List Action × List String
  | [] => ([], [])
  | p :: rest =>
      let r := schedulePaths isdir rest
      if isdir p then (watchAction p :: r.1, p :: r.2)
      else (warnAction p :: r.1, r.2)

/-- The function `run`, with `os.path.isdir` abstracted as a predicate:
split `config_path` on semicolons, validate each path, start the observer,
and enter the idle loop.  No branch raises an error on an empty schedule. -/
def run (isdir : String → Bool) (config_path : String) : RunOutcome :=
  let r := schedulePaths isdir (splitPaths config_path)
  ⟨r.1 ++ [Action.logInfo "Entering event loop..."], r.2, true, false⟩

/-- `logging.ERROR`. -/
def loggingERROR : Int := 40

/-- `logging.DEBUG`. -/
def loggingDEBUG : Int := 10

/-- The log-level computation in `main`: `loglvl = logging.ERROR`, then
`if args.verbose > 0: loglvl = max(logging.ERROR - 10 * args.verbose,
logging.DEBUG)`. -/
def loglvl (verbose : Nat) : Int :=
  if verbose > 0 then max (loggingERROR - 10 * (verbose : Int)) loggingDEBUG
  else loggingERROR

/-- A concrete handler used to instantiate the theorems below. -/
def hExample : ConfigmapHandler :=
  ⟨"pgbouncer.default.svc", 6432, "pgbouncer", "secret", "pgbouncer", 10⟩

/-- A qualifying creation event (file, basename starts with `..data`). -/
def evQual : FileSystemEvent := ⟨"/etc/pgbouncer/..data_tmp", false⟩

/-- A second qualifying creation event. -/
def evQual2 : FileSystemEvent := ⟨"/etc/pgbouncer/..data_4567", false⟩

/-! ### Helper lemmas -/

theorem reloadAttempts_append (a b : List Action) :
    reloadAttempts (a ++ b) = reloadAttempts a + reloadAttempts b := by
  simp [reloadAttempts, List.filter_append]

theorem reload_attempts_one (h : ConfigmapHandler) (f : ReloadFault) :
    reloadAttempts (pgbouncer_reload h f).trace = 1 := by
  cases f <;>
    simp [pgbouncer_reload, reloadAttempts, cleanupTrace, errLog, isConnectAction,
      List.filter]

theorem reloadAttempts_nil : reloadAttempts [] = 0 := rfl

theorem reloadAttempts_two_logs (m : String) (s : Nat) (t : List Action) :
    reloadAttempts (Action.logInfo m :: Action.sleep s :: t) = reloadAttempts t := by
  simp [reloadAttempts, List.filter, isConnectAction]

theorem on_created_attempts (h : ConfigmapHandler) (f : ReloadFault)
    (e : FileSystemEvent) :
    reloadAttempts (on_created h f e) = if qualifies e then 1 else 0 := by
  unfold on_created qualifies
  cases hd : e.is_directory
  · cases hm : strStartsWith (basename e.src_path) "..data"
    · simp [reloadAttempts, List.filter, isConnectAction]
    · simp [reloadAttempts_two_logs, reload_attempts_one]
  · simp [reloadAttempts, List.filter]

theorem connClose_mem_iff (h : ConfigmapHandler) (f : ReloadFault) :
    Action.connClose ∈ (pgbouncer_reload h f).trace ↔
      (pgbouncer_reload h f).connectionAcquired = true := by
  cases f <;> simp [pgbouncer_reload, cleanupTrace, errLog]

theorem success_log_mem (h : ConfigmapHandler) (f : ReloadFault) :
    f ≠ ReloadFault.connectFail →
      Action.logInfo "Pgbouncer gracefully reloaded." ∈ (pgbouncer_reload h f).trace := by
  cases f <;> simp [pgbouncer_reload, cleanupTrace, errLog]

theorem schedulePaths_sched (isdir : String → Bool) (l : List String) :
    (schedulePaths isdir l).2 = l.filter isdir := by
  induction l with
  | nil => rfl
  | cons p rest ih =>
    cases hd : isdir p <;> simp [schedulePaths, hd, List.filter, ih]

theorem schedulePaths_warn (isdir : String → Bool) (l : List String) (p : String)
    (hp : p ∈ l) (hd : isdir p = false) :
    warnAction p ∈ (schedulePaths isdir l).1 := by
  induction l with
  | nil => cases hp
  | cons q rest ih =>
    cases hp with
    | head => simp [schedulePaths, hd]
    | tail _ hmem =>
      cases hq : isdir q <;> simp [schedulePaths, hq, ih hmem]

theorem loglvl_eq_max (v : Nat) :
    loglvl v = max (loggingERROR - 10 * (v : Int)) loggingDEBUG := by
  unfold loglvl
  by_cases hv : v > 0
  · simp [hv]
  · have hz : v = 0 := by omega
    subst hz
    simp [loggingERROR, loggingDEBUG]

/-! ### Claim theorems -/

/-- Claim C1: for every filesystem creation event, a directory-flagged event,
or one whose basename does not start with the marker, triggers no reload
attempt; a reload is attempted (exactly once) precisely for non-directory
events whose basename starts with the literal marker. -/
theorem c1_event_filter (h : ConfigmapHandler) (f : ReloadFault)
    (e : FileSystemEvent) :
    reloadAttempts (on_created h f e) =
      if e.is_directory then 0
      else if strStartsWith (basename e.src_path) "..data" then 1 else 0 := by
  rw [on_created_attempts]
  unfold qualifies
  cases hd : e.is_directory <;>
    cases hm : strStartsWith (basename e.src_path) "..data" <;> simp [hd, hm]

/-- Claim C2: on the success path the reload performs exactly this sequence:
connect with the handler parameters, set isolation level 0 (auto-commit),
execute the single statement RELOAD;, commit, and clean up (close cursor,
close connection); and for every fault, the connection-close action appears
in the trace exactly when a connection was acquired, so cleanup runs whether
or not the command succeeded. -/
theorem c2_reload_sequence (h : ConfigmapHandler) :
    (pgbouncer_reload h ReloadFault.noFault).trace =
      [Action.logDebug "Pgbouncer graceful reload starting...",
       Action.connect h.user h.password h.host h.port h.database,
       Action.setIsolationLevel 0,
       Action.cursorOpen,
       Action.execute "RELOAD;",
       Action.commit,
       Action.cursorClose,
       Action.connClose,
       Action.logDebug "Pgbouncer connection is closed",
       Action.logInfo "Pgbouncer gracefully reloaded."] ∧
    ∀ f, Action.connClose ∈ (pgbouncer_reload h f).trace ↔
      (pgbouncer_reload h f).connectionAcquired = true :=
  ⟨rfl, fun f => connClose_mem_iff h f⟩

/-- Claim C3: whenever a reload attempt successfully acquires a connection,
the connection is closed before the handler returns, for every possible
fault in the subsequent isolation-level change, command execution, or
commit. -/
theorem c3_connection_released (h : ConfigmapHandler) (f : ReloadFault) :
    (pgbouncer_reload h f).connectionAcquired = true →
      Action.connClose ∈ (pgbouncer_reload h f).trace :=
  fun hc => (connClose_mem_iff h f).mpr hc

theorem c3_witness :
    (pgbouncer_reload hExample ReloadFault.commitFail).connectionAcquired = true ∧
    Action.connClose ∈ (pgbouncer_reload hExample ReloadFault.commitFail).trace :=
  ⟨rfl, c3_connection_released hExample ReloadFault.commitFail rfl⟩

/-- Claim C4: every fault inside the reload is caught (logged via the
except-clause error line) and never propagates out of the handler, and a
qualifying event following a failed reload still produces its own reload
attempt (two qualifying events always yield two attempts, whatever the
first fault was). -/
theorem c4_failures_contained (h : ConfigmapHandler) (f f2 : ReloadFault)
    (e e2 : FileSystemEvent) :
    (pgbouncer_reload h f).propagated = false ∧
    (f ≠ ReloadFault.noFault →
      (pgbouncer_reload h f).errorCaught = true ∧
      errLog f ∈ (pgbouncer_reload h f).trace) ∧
    (qualifies e = true → qualifies e2 = true →
      reloadAttempts (processEvents h [(e, f), (e2, f2)]) = 2) := by
  refine ⟨?_, ?_, ?_⟩
  · cases f <;> rfl
  · intro hf
    cases f <;> simp_all [pgbouncer_reload, cleanupTrace, errLog]
  · intro hq hq2
    simp [processEvents, reloadAttempts_append, on_created_attempts, hq, hq2,
      reloadAttempts_nil]

theorem c4_witness :
    (pgbouncer_reload hExample ReloadFault.connectFail).propagated = false ∧
    ((pgbouncer_reload hExample ReloadFault.connectFail).errorCaught = true ∧
      errLog ReloadFault.connectFail ∈
        (pgbouncer_reload hExample ReloadFault.connectFail).trace) ∧
    reloadAttempts (processEvents hExample
      [(evQual, ReloadFault.connectFail), (evQual2, ReloadFault.noFault)]) = 2 :=
  ⟨(c4_failures_contained hExample ReloadFault.connectFail ReloadFault.noFault
      evQual evQual2).1,
   (c4_failures_contained hExample ReloadFault.connectFail ReloadFault.noFault
      evQual evQual2).2.1 (by decide),
   (c4_failures_contained hExample ReloadFault.connectFail ReloadFault.noFault
      evQual evQual2).2.2 (by decide) (by decide)⟩

/-- Claim C5 (divergence, evaluated at the failing input): with no valid
directory among the configured paths, `run` schedules nothing yet still
enters the idle loop without raising any configuration error — it does not
fail as the claim states. -/
theorem c5_zero_valid_paths_proceeds :
    (run (fun _ => false) "/missing/path").scheduled = [] ∧
    (run (fun _ => false) "/missing/path").enteredLoop = true ∧
    (run (fun _ => false) "/missing/path").raisedConfigError = false ∧
    warnAction "/missing/path" ∈ (run (fun _ => false) "/missing/path").trace := by
  decide

/-- Claim C6: for every qualifying creation event the handler emits the
event log, then sleeps for exactly the configured timeout, and only then
runs the reload; and a handler constructed without an explicit timeout gets
the default of 10. -/
theorem c6_debounce_sleep (h : ConfigmapHandler) (f : ReloadFault)
    (e : FileSystemEvent) :
    (qualifies e = true →
      on_created h f e =
        [Action.logInfo ("CREATE event: " ++ e.src_path), Action.sleep h.timeout] ++
          (pgbouncer_reload h f).trace) ∧
    ∀ (host : String) (port : Nat) (user password : String),
      ({ host := host, port := port, user := user, password := password } :
        ConfigmapHandler).timeout = 10 := by
  refine ⟨fun hq => ?_, fun _ _ _ _ => rfl⟩
  unfold qualifies at hq
  simp only [Bool.and_eq_true, Bool.not_eq_true'] at hq
  simp [on_created, hq.1, hq.2]

theorem c6_witness :
    qualifies evQual = true ∧
    on_created hExample ReloadFault.noFault evQual =
      [Action.logInfo ("CREATE event: " ++ evQual.src_path),
       Action.sleep hExample.timeout] ++
        (pgbouncer_reload hExample ReloadFault.noFault).trace :=
  ⟨by decide,
   (c6_debounce_sleep hExample ReloadFault.noFault evQual).1 (by decide)⟩

/-- Claim C7: events are never coalesced — over any sequence of creation
events, the number of reload attempts equals the number of qualifying
events, one attempt per qualifying event. -/
theorem c7_one_reload_per_qualifying_event (h : ConfigmapHandler)
    (l : List (FileSystemEvent × ReloadFault)) :
    reloadAttempts (processEvents h l) =
      (l.filter (fun p => qualifies p.1)).length := by
  induction l with
  | nil => rfl
  | cons p rest ih =>
    obtain ⟨e, f⟩ := p
    cases hq : qualifies e <;>
      simp [processEvents, reloadAttempts_append, on_created_attempts, hq,
        List.filter_cons, ih]
    all_goals omega

/-- Claim C8: `run` schedules exactly the configured paths that are
directories, logs a warning for every path that is not, and always reaches
the loop; in particular with paths /etc/pgbouncer;/missing/path where only
the first is a directory, it schedules only /etc/pgbouncer, warns about
/missing/path, and initialization succeeds. -/
theorem c8_invalid_paths_skipped (isdir : String → Bool) (config_path : String) :
    ((run isdir config_path).scheduled = (splitPaths config_path).filter isdir ∧
     (∀ p, p ∈ splitPaths config_path → isdir p = false →
        warnAction p ∈ (run isdir config_path).trace) ∧
     (run isdir config_path).enteredLoop = true) ∧
    ((run (fun q => q == "/etc/pgbouncer") "/etc/pgbouncer;/missing/path").scheduled =
        ["/etc/pgbouncer"] ∧
     warnAction "/missing/path" ∈
        (run (fun q => q == "/etc/pgbouncer") "/etc/pgbouncer;/missing/path").trace ∧
     (run (fun q => q == "/etc/pgbouncer") "/etc/pgbouncer;/missing/path").enteredLoop
        = true) := by
  refine ⟨⟨schedulePaths_sched isdir (splitPaths config_path), fun p hp hd => ?_, rfl⟩,
    by decide, by decide, rfl⟩
  simp [run, List.mem_append]
  exact Or.inl (schedulePaths_warn isdir (splitPaths config_path) p hp hd)

theorem c8_witness :
    "/missing/path" ∈ splitPaths "/etc/pgbouncer;/missing/path" ∧
    (fun q => q == "/etc/pgbouncer") "/missing/path" = false ∧
    warnAction "/missing/path" ∈
      (run (fun q => q == "/etc/pgbouncer") "/etc/pgbouncer;/missing/path").trace :=
  ⟨by decide, by decide,
   (c8_invalid_paths_skipped (fun q => q == "/etc/pgbouncer")
      "/etc/pgbouncer;/missing/path").1.2.1 "/missing/path" (by decide) (by decide)⟩

/-- Claim C9: whenever a connection was acquired, the cleanup phase logs the
success message Pgbouncer gracefully reloaded., even on code paths where the
command or commit failed and the failure was caught. -/
theorem c9_success_log_unconditional (h : ConfigmapHandler) (f : ReloadFault) :
    (pgbouncer_reload h f).connectionAcquired = true →
      Action.logInfo "Pgbouncer gracefully reloaded." ∈ (pgbouncer_reload h f).trace := by
  intro hc
  apply success_log_mem h f
  intro hf
  subst hf
  exact Bool.false_ne_true hc

theorem c9_witness :
    ((pgbouncer_reload hExample ReloadFault.executeFail).connectionAcquired = true ∧
     (pgbouncer_reload hExample ReloadFault.executeFail).errorCaught = true) ∧
    Action.logInfo "Pgbouncer gracefully reloaded." ∈
      (pgbouncer_reload hExample ReloadFault.executeFail).trace :=
  ⟨⟨rfl, rfl⟩, c9_success_log_unconditional hExample ReloadFault.executeFail rfl⟩

/-- Claim C10: the configured log level is ERROR at verbosity 0, equals
max(ERROR - 10 v, DEBUG) for positive verbosity v, never increases as the
verbosity grows, and is DEBUG for every verbosity of at least 4. -/
theorem c10_loglvl_antitone (v w : Nat) :
    loglvl 0 = loggingERROR ∧
    (0 < v → loglvl v = max (loggingERROR - 10 * (v : Int)) loggingDEBUG) ∧
    (v ≤ w → loglvl w ≤ loglvl v) ∧
    (4 ≤ v → loglvl v = loggingDEBUG) := by
  refine ⟨by decide, fun _ => loglvl_eq_max v, fun hvw => ?_, fun hv => ?_⟩
  · rw [loglvl_eq_max, loglvl_eq_max]
    exact max_le_max (sub_le_sub_left (by omega) _) le_rfl
  · rw [loglvl_eq_max]
    unfold loggingERROR loggingDEBUG
    rw [max_eq_right (by omega)]

theorem c10_witness :
    ((2 : Nat) ≤ 5 ∧ loglvl 5 ≤ loglvl 2) ∧
    (0 < (2 : Nat) ∧ loglvl 2 = max (loggingERROR - 10 * ((2 : Nat) : Int)) loggingDEBUG) ∧
    ((4 : Nat) ≤ 5 ∧ loglvl 5 = loggingDEBUG) :=
  ⟨⟨by decide, (c10_loglvl_antitone 2 5).2.2.1 (by decide)⟩,
   ⟨by decide, (c10_loglvl_antitone 2 5).2.1 (by decide)⟩,
   ⟨by decide, (c10_loglvl_antitone 5 0).2.2.2 (by decide)⟩⟩

end PgbouncerReload
